import Mathlib

/-
Verification of the concurrency core of the primordialsoup runtime:
the pthread-backed Thread/Mutex/Monitor primitives (vm/thread_fuchsia.cc)
and the IsolateMessage envelope (vm/message_loop.h), shallowly embedded.

Machine integers are modelled as Int with explicit wrapping where a C cast
can overflow.  Each pthread-backed operation is embedded as a pure function
of the primitive's state plus, where the OS outcome is not determined by
that state, an oracle argument holding the result code the OS call returned.
The C control flow around the call (RETURN_ON_PTHREAD_FAILURE,
VALIDATE_PTHREAD_RESULT, ASSERT, ASSERT_PTHREAD_SUCCESS) is translated
branch by branch.  In a DEBUG build ASSERT aborts on a false condition and
ASSERT_PTHREAD_SUCCESS expands to VALIDATE_PTHREAD_RESULT (fatal); in a
release build both are no-ops, as the comments in thread_fuchsia.cc state.
-/

namespace Psoup

/-- Errno values used by the code (musl/Fuchsia numbering). -/
def EPERM : Int := 1

def EAGAIN : Int := 11

def EBUSY : Int := 16

def EDEADLK : Int := 35

def ETIMEDOUT : Int := 110

def kNanosecondsPerSecond : Int := 1000000000

def kMaxInt32 : Int := 2147483647

/-- Thread::kInvalidThreadId is static_cast of 0 (thread_fuchsia.cc line 107). -/
def kInvalidThreadId : Int := 0

/-- Outcome of one embedded operation.  `ok` is a normal return; `blocked`
means the pthread call suspends the calling thread (lock contention or
self-deadlock on a non-errorcheck mutex); `assertFail` is a failed ASSERT or
DEBUG_ASSERT in a DEBUG build (process aborts with a diagnostic);
`fatal` is FATAL1 via VALIDATE_PTHREAD_RESULT or a DEBUG-build
ASSERT_PTHREAD_SUCCESS (process terminates); `ub` marks undefined behavior
of the OS primitive (misuse of a non-errorcheck mutex). -/
inductive Outcome (α : Type) where
  | ok : α → Outcome α
  | blocked : Outcome α
  | assertFail : Outcome α
  | fatal : Outcome α
  | ub : Outcome α
  deriving DecidableEq

def Outcome.bind : Outcome α → (α → Outcome β) → Outcome β
  | .ok a, f => f a
  | .blocked, _ => .blocked
  | .assertFail, _ => .assertFail
  | .fatal, _ => .fatal
  | .ub, _ => .ub

def Outcome.map (f : α → β) : Outcome α → Outcome β :=
  fun o => o.bind (fun a => .ok (f a))

def Outcome.isBlocked : Outcome α → Bool
  | .blocked => true
  | _ => false

/-- Results of the three pthread calls made by Thread::Start
(pthread_attr_init, pthread_create, pthread_attr_destroy), supplied by the
OS oracle. -/
structure ThreadStartOS where
  attrInit : Int
  create : Int
  attrDestroy : Int
  deriving DecidableEq

/-- Thread::Start (thread_fuchsia.cc lines 87-104): each pthread result goes
through RETURN_ON_PTHREAD_FAILURE, which on a nonzero result returns that
result to the caller (in DEBUG it first prints to stderr); on success of all
three calls the function returns 0. -/
def Thread.Start (os : ThreadStartOS) : Outcome Int :=
  if os.attrInit ≠ 0 then .ok os.attrInit
  else if os.create ≠ 0 then .ok os.create
  else if os.attrDestroy ≠ 0 then .ok os.attrDestroy
  else .ok 0

/-- Thread::CreateThreadLocal (lines 112-118): pthread_key_create result goes
through VALIDATE_PTHREAD_RESULT, which is FATAL1 on any nonzero result. -/
def Thread.CreateThreadLocal (osr : Int) : Outcome Unit :=
  if osr ≠ 0 then .fatal else .ok ()

/-- Thread::DeleteThreadLocal (lines 121-125): pthread_key_delete result goes
through VALIDATE_PTHREAD_RESULT (FATAL1 on nonzero). -/
def Thread.DeleteThreadLocal (osr : Int) : Outcome Unit :=
  if osr ≠ 0 then .fatal else .ok ()

/-- A Thread object as observable through the trampoline: its name_ field
(set by set_name).  The remaining fields play no part in the claims. -/
structure ThreadRec where
  name : Option String
  deriving DecidableEq

/-- The thread-local state of the new OS thread: the Thread* registered by
Thread::SetCurrent, initially absent on a fresh thread. -/
structure TlsState where
  current : Option ThreadRec
  deriving DecidableEq

/-- Thread::Current of the per-thread TLS slot.  Modelled from the spec:
the accessor is declared in vm/thread.h (not in the sources at hand); the
spec describes it as retrieving the thread-local execution context. -/
def Thread.Current (st : TlsState) : Option ThreadRec :=
  st.current

/-- ThreadStart trampoline (thread_fuchsia.cc lines 67-84): unpacks the
ThreadStartData, deletes it, allocates a fresh Thread, installs it via
Thread::SetCurrent, assigns the name, and only then calls the supplied entry
function with its parameter.  The entry function is embedded as an arbitrary
observer of the parameter and the TLS state at the moment of the call. -/
def ThreadStart (name : String) (parameter : Nat)
    (function : Nat → TlsState → TlsState) : TlsState :=
  let thread : ThreadRec := { name := none }
  let st : TlsState := { current := some thread }
  let st : TlsState :=
    { current := st.current.map (fun t => { t with name := some name }) }
  function parameter st

/-- Thread::ThreadIdToIntPtr (lines 165-168): static_cast of the 64-bit
ThreadId value to intptr_t (the asserted size equality holds in the model:
both sides are 64 bits).  The cast reinterprets the value in two's
complement. -/
def Thread.ThreadIdToIntPtr (id : Nat) : Int :=
  if id < 2 ^ 63 then (id : Int) else (id : Int) - 2 ^ 64

/-- Thread::ThreadIdFromIntPtr (lines 171-173): static_cast back from
intptr_t to the 64-bit ThreadId. -/
def Thread.ThreadIdFromIntPtr (x : Int) : Nat :=
  (x % 2 ^ 64).toNat

/-- IsolateMessage (message_loop.h lines 14-46).  Pointers are modelled as
Option Nat (none is NULL); dest_ is the opaque Port value. -/
structure IsolateMessage where
  next : Option Nat
  dest : Int
  data : Option Nat
  length : Int
  argv : Option Nat
  argc : Int
  deriving DecidableEq

/-- The byte-buffer constructor (message_loop.h lines 16-19). -/
def IsolateMessage.ofData (dest : Int) (data : Option Nat) (length : Int) :
    IsolateMessage :=
  { next := none, dest := dest, data := data, length := length,
    argv := none, argc := 0 }

/-- The argument-list constructor (message_loop.h lines 20-23). -/
def IsolateMessage.ofArgs (dest : Int) (argc : Int) (argv : Option Nat) :
    IsolateMessage :=
  { next := none, dest := dest, data := none, length := 0,
    argv := argv, argc := argc }

/-- C free applied to a possibly-NULL pointer: the list of buffers it
releases.  free(NULL) is defined and releases nothing. -/
def cFree : Option Nat → List Nat
  | none => []
  | some p => [p]

/-- The destructor body (message_loop.h line 25) is exactly free(data_); this
is the list of buffers it releases. -/
def IsolateMessage.destructorFrees (m : IsolateMessage) : List Nat :=
  cFree m.data

/-- A message's two payload shapes are mutually exclusive: at least one side
is absent. -/
def IsolateMessage.shapesExclusive (m : IsolateMessage) : Prop :=
  m.data = none ∨ m.argv = none

/-- State of a pthread mutex together with the DEBUG-build owner_ tracking
field.  held is the thread (if any) holding the underlying pthread mutex;
errorcheck records whether the constructor selected PTHREAD_MUTEX_ERRORCHECK
(done exactly in DEBUG builds); owner is the owner_ field maintained by
CheckUnheldAndMark/CheckHeldAndUnmark (kInvalidThreadId when free). -/
structure Mutex where
  held : Option Int
  errorcheck : Bool
  owner : Int
  deriving DecidableEq

/-- State of a Monitor: the same mutex state plus the set of threads blocked
in a wait on the condition variable. -/
structure Monitor where
  held : Option Int
  errorcheck : Bool
  owner : Int
  waiters : List Int
  deriving DecidableEq

/-- POSIX pthread_mutex_lock on a mutex in state held/errorcheck, called by
thread self: acquires a free mutex (result 0); on a mutex held by self an
errorcheck mutex reports EDEADLK while a normal mutex deadlocks (blocked);
held by another thread the call blocks. -/
def pthreadMutexLock (held : Option Int) (errorcheck : Bool) (self : Int) :
    Outcome (Option Int × Int) :=
  match held with
  | none => .ok (some self, 0)
  | some t =>
      if t = self then
        (if errorcheck then .ok (some t, EDEADLK) else .blocked)
      else .blocked

/-- POSIX pthread_mutex_trylock: acquires a free mutex (result 0) and
reports EBUSY on a held one, never blocking. -/
def pthreadMutexTrylock (held : Option Int) (self : Int) : Option Int × Int :=
  match held with
  | none => (some self, 0)
  | some t => (some t, EBUSY)

/-- POSIX pthread_mutex_unlock: releases a mutex held by self (result 0);
for an errorcheck mutex an unlock by a non-holder reports EPERM; for a
normal mutex it is undefined behavior. -/
def pthreadMutexUnlock (held : Option Int) (errorcheck : Bool) (self : Int) :
    Outcome (Option Int × Int) :=
  match held with
  | some t =>
      if t = self then .ok (none, 0)
      else if errorcheck then .ok (some t, EPERM) else .ub
  | none => if errorcheck then .ok (none, EPERM) else .ub

/-- Modelled from the spec: CheckUnheldAndMark is declared in vm/thread.h,
which is not among the sources at hand.  The spec says DEBUG builds track the
owning thread and assert no double-lock, so in DEBUG the helper asserts
owner_ == kInvalidThreadId and then marks owner_ with the calling thread; in
release it is a no-op.  Returns the new owner_ value. -/
def checkUnheldAndMarkOwner (debug : Bool) (self owner : Int) : Outcome Int :=
  if debug then
    (if owner = kInvalidThreadId then .ok self else .assertFail)
  else .ok owner

/-- Modelled from the spec: CheckHeldAndUnmark (vm/thread.h, not in the
sources at hand).  In DEBUG it asserts owner_ == current thread and clears
owner_; in release it is a no-op.  Returns the new owner_ value. -/
def checkHeldAndUnmarkOwner (debug : Bool) (self owner : Int) : Outcome Int :=
  if debug then
    (if owner = self then .ok kInvalidThreadId else .assertFail)
  else .ok owner

/-- Modelled from the spec: Monitor::IsOwnedByCurrentThread (vm/thread.h,
not in the sources at hand) compares the tracked owner_ with the calling
thread's id. -/
def Monitor.IsOwnedByCurrentThread (m : Monitor) (self : Int) : Bool :=
  m.owner = self

/-- Results of the pthread calls made by the Mutex constructor
(thread_fuchsia.cc lines 181-202): pthread_mutexattr_init, the DEBUG-only
pthread_mutexattr_settype(PTHREAD_MUTEX_ERRORCHECK), pthread_mutex_init and
pthread_mutexattr_destroy. -/
structure MutexInitOS where
  mutexattrInit : Int
  settype : Int
  mutexInit : Int
  mutexattrDestroy : Int
  deriving DecidableEq

/-- Mutex constructor (lines 181-202): every pthread result goes through
VALIDATE_PTHREAD_RESULT (FATAL1 on nonzero); settype runs only in DEBUG; in
DEBUG the owner_ field is initialized to kInvalidThreadId. -/
def Mutex.construct (debug : Bool) (os : MutexInitOS) : Outcome Mutex :=
  if os.mutexattrInit ≠ 0 then .fatal
  else if debug ∧ os.settype ≠ 0 then .fatal
  else if os.mutexInit ≠ 0 then .fatal
  else if os.mutexattrDestroy ≠ 0 then .fatal
  else .ok { held := none, errorcheck := debug, owner := kInvalidThreadId }

/-- Results of the pthread calls made by the Monitor constructor
(lines 247-280). -/
structure MonitorInitOS where
  mutexattrInit : Int
  settype : Int
  mutexInit : Int
  mutexattrDestroy : Int
  condattrInit : Int
  setclock : Int
  condInit : Int
  condattrDestroy : Int
  deriving DecidableEq

/-- Monitor constructor (lines 247-280): every pthread result goes through
VALIDATE_PTHREAD_RESULT (FATAL1 on nonzero); settype runs only in DEBUG; the
condition variable is bound to CLOCK_MONOTONIC. -/
def Monitor.construct (debug : Bool) (os : MonitorInitOS) : Outcome Monitor :=
  if os.mutexattrInit ≠ 0 then .fatal
  else if debug ∧ os.settype ≠ 0 then .fatal
  else if os.mutexInit ≠ 0 then .fatal
  else if os.mutexattrDestroy ≠ 0 then .fatal
  else if os.condattrInit ≠ 0 then .fatal
  else if os.setclock ≠ 0 then .fatal
  else if os.condInit ≠ 0 then .fatal
  else if os.condattrDestroy ≠ 0 then .fatal
  else .ok { held := none, errorcheck := debug, owner := kInvalidThreadId,
             waiters := [] }

/-- Mutex::Lock (lines 217-223): pthread_mutex_lock, then
ASSERT(result != EDEADLK) (DEBUG only), then ASSERT_PTHREAD_SUCCESS (FATAL1
in DEBUG, no-op in release), then CheckUnheldAndMark. -/
def Mutex.Lock (debug : Bool) (self : Int) (m : Mutex) : Outcome Mutex :=
  (pthreadMutexLock m.held m.errorcheck self).bind fun p =>
    if debug ∧ p.2 = EDEADLK then .assertFail
    else if debug ∧ p.2 ≠ 0 then .fatal
    else (checkUnheldAndMarkOwner debug self m.owner).map fun ow =>
      { held := p.1, errorcheck := m.errorcheck, owner := ow }

/-- The body of Mutex::TryLock after the pthread_mutex_trylock call
(lines 228-234), as a function of the result code it returned and the mutex
state after the call: return false on EBUSY, otherwise
ASSERT_PTHREAD_SUCCESS (FATAL1 in DEBUG on nonzero, no-op in release), then
CheckUnheldAndMark and return true. -/
def Mutex.tryLockCont (debug : Bool) (self : Int) (held : Option Int)
    (errorcheck : Bool) (owner : Int) (result : Int) :
    Outcome (Mutex × Bool) :=
  if result = EBUSY then
    .ok ({ held := held, errorcheck := errorcheck, owner := owner }, false)
  else if debug ∧ result ≠ 0 then .fatal
  else (checkUnheldAndMarkOwner debug self owner).map fun ow =>
    ({ held := held, errorcheck := errorcheck, owner := ow }, true)

/-- Mutex::TryLock (lines 226-235): pthread_mutex_trylock followed by the
result handling of tryLockCont. -/
def Mutex.TryLock (debug : Bool) (self : Int) (m : Mutex) :
    Outcome (Mutex × Bool) :=
  let p := pthreadMutexTrylock m.held self
  Mutex.tryLockCont debug self p.1 m.errorcheck m.owner p.2

/-- Mutex::Unlock (lines 238-244): CheckHeldAndUnmark first, then
pthread_mutex_unlock, then ASSERT(result != EPERM) (DEBUG only), then
ASSERT_PTHREAD_SUCCESS. -/
def Mutex.Unlock (debug : Bool) (self : Int) (m : Mutex) : Outcome Mutex :=
  (checkHeldAndUnmarkOwner debug self m.owner).bind fun ow =>
    (pthreadMutexUnlock m.held m.errorcheck self).bind fun p =>
      if debug ∧ p.2 = EPERM then .assertFail
      else if debug ∧ p.2 ≠ 0 then .fatal
      else .ok { held := p.1, errorcheck := m.errorcheck, owner := ow }

/-- The body of Monitor::TryEnter after the pthread_mutex_trylock call
(lines 297-306), mirroring Mutex::tryLockCont on the monitor state. -/
def Monitor.tryEnterCont (debug : Bool) (self : Int) (held : Option Int)
    (errorcheck : Bool) (owner : Int) (waiters : List Int) (result : Int) :
    Outcome (Monitor × Bool) :=
  if result = EBUSY then
    .ok ({ held := held, errorcheck := errorcheck, owner := owner,
           waiters := waiters }, false)
  else if debug ∧ result ≠ 0 then .fatal
  else (checkUnheldAndMarkOwner debug self owner).map fun ow =>
    ({ held := held, errorcheck := errorcheck, owner := ow,
       waiters := waiters }, true)

/-- Monitor::TryEnter (lines 297-306). -/
def Monitor.TryEnter (debug : Bool) (self : Int) (m : Monitor) :
    Outcome (Monitor × Bool) :=
  let p := pthreadMutexTrylock m.held self
  Monitor.tryEnterCont debug self p.1 m.errorcheck m.owner m.waiters p.2

/-- Monitor::Enter (lines 309-313): pthread_mutex_lock, VALIDATE (FATAL1 on
nonzero in all builds), CheckUnheldAndMark. -/
def Monitor.Enter (debug : Bool) (self : Int) (m : Monitor) :
    Outcome Monitor :=
  (pthreadMutexLock m.held m.errorcheck self).bind fun p =>
    if p.2 ≠ 0 then .fatal
    else (checkUnheldAndMarkOwner debug self m.owner).map fun ow =>
      { held := p.1, errorcheck := m.errorcheck, owner := ow,
        waiters := m.waiters }

/-- Monitor::Exit (lines 316-320): CheckHeldAndUnmark, pthread_mutex_unlock,
VALIDATE. -/
def Monitor.Exit (debug : Bool) (self : Int) (m : Monitor) :
    Outcome Monitor :=
  (checkHeldAndUnmarkOwner debug self m.owner).bind fun ow =>
    (pthreadMutexUnlock m.held m.errorcheck self).bind fun p =>
      if p.2 ≠ 0 then .fatal
      else .ok { held := p.1, errorcheck := m.errorcheck, owner := ow,
                 waiters := m.waiters }

/-- The timespec handed to pthread_cond_timedwait. -/
structure Timespec where
  tv_sec : Int
  tv_nsec : Int
  deriving DecidableEq

/-- The value static_cast to int32_t produces: two's-complement wrap of the
64-bit value into the 32-bit range. -/
def int32Cast (x : Int) : Int :=
  (x + 2 ^ 31) % 2 ^ 32 - 2 ^ 31

/-- Monitor::WaitResult (vm/thread.h): kNotified or kTimedOut. -/
inductive WaitResult where
  | kNotified
  | kTimedOut
  deriving DecidableEq

/-- The timespec computation of Monitor::WaitUntilNanos (lines 335-343):
truncating C division and remainder of the int64 deadline by one billion,
the quotient clamped to kMaxInt32 when it exceeds that bound, then
static_cast to int32_t (seconds) and long (nanoseconds; always within one
billion in magnitude, hence lossless). -/
def waitTimespec (deadline : Int) : Timespec :=
  let secs := Int.tdiv deadline kNanosecondsPerSecond
  let nanos := Int.tmod deadline kNanosecondsPerSecond
  let secs2 := if secs > kMaxInt32 then kMaxInt32 else secs
  { tv_sec := int32Cast secs2, tv_nsec := nanos }

/-- Monitor::WaitUntilNanos (lines 331-352): CheckHeldAndUnmark, build the
absolute timespec, pthread_cond_timedwait (whose result code osr is the OS
oracle; the call atomically releases the mutex and has reacquired it when it
returns), ASSERT(result is 0 or ETIMEDOUT) (DEBUG only), map ETIMEDOUT to
kTimedOut, CheckUnheldAndMark.  The returned triple carries the monitor
state, the timespec that was handed to the OS wait, and the WaitResult. -/
def Monitor.WaitUntilNanos (debug : Bool) (self : Int) (m : Monitor)
    (deadline : Int) (osr : Int) : Outcome (Monitor × Timespec × WaitResult) :=
  (checkHeldAndUnmarkOwner debug self m.owner).bind fun _ =>
    let ts := waitTimespec deadline
    if debug ∧ ¬(osr = 0 ∨ osr = ETIMEDOUT) then .assertFail
    else
      let retval := if osr = ETIMEDOUT then WaitResult.kTimedOut
                    else WaitResult.kNotified
      (checkUnheldAndMarkOwner debug self kInvalidThreadId).map fun ow =>
        ({ held := m.held, errorcheck := m.errorcheck, owner := ow,
           waiters := m.waiters }, ts, retval)

/-- Monitor::Notify (lines 355-360): DEBUG_ASSERT(IsOwnedByCurrentThread())
(DEBUG only), then pthread_cond_signal with its result through
VALIDATE_PTHREAD_RESULT (FATAL1 on nonzero in all builds).  The signal wakes
at most one waiter; the pair returned is the new monitor state and the list
of threads woken. -/
def Monitor.Notify (debug : Bool) (self : Int) (m : Monitor) (osr : Int) :
    Outcome (Monitor × List Int) :=
  if debug && ! m.IsOwnedByCurrentThread self then .assertFail
  else if osr ≠ 0 then .fatal
  else .ok ({ held := m.held, errorcheck := m.errorcheck, owner := m.owner,
              waiters := m.waiters.drop 1 }, m.waiters.take 1)

/-- Monitor::NotifyAll (lines 363-368): DEBUG_ASSERT(IsOwnedByCurrentThread())
(DEBUG only), then pthread_cond_broadcast through VALIDATE_PTHREAD_RESULT.
The broadcast wakes every waiter. -/
def Monitor.NotifyAll (debug : Bool) (self : Int) (m : Monitor) (osr : Int) :
    Outcome (Monitor × List Int) :=
  if debug && ! m.IsOwnedByCurrentThread self then .assertFail
  else if osr ≠ 0 then .fatal
  else .ok ({ held := m.held, errorcheck := m.errorcheck, owner := m.owner,
              waiters := [] }, m.waiters)

/-- Claim C2: destroying an IsolateMessage frees the owned byte buffer, a
safe no-op when the buffer pointer is null (in particular for messages from
the argument-list constructor), and destruction never frees the
argument-list memory: the only buffer ever released is the data_ pointer. -/
theorem isolateMessage_destructor_frees_only_data :
    (∀ (dest : Int) (p : Nat) (length : Int),
        (IsolateMessage.ofData dest (some p) length).destructorFrees = [p]) ∧
    (∀ (dest length : Int),
        (IsolateMessage.ofData dest none length).destructorFrees = []) ∧
    (∀ (dest argc : Int) (argv : Option Nat),
        (IsolateMessage.ofArgs dest argc argv).destructorFrees = []) ∧
    (∀ (m : IsolateMessage) (q : Nat),
        q ∈ m.destructorFrees ↔ m.data = some q) := by
  refine ⟨fun _ _ _ => rfl, fun _ _ => rfl, fun _ _ _ => rfl, ?_⟩
  intro m q
  cases h : m.data <;>
    simp [IsolateMessage.destructorFrees, cFree, h, eq_comm]

/-- Claim C3: the byte-buffer constructor leaves argv null and argc zero,
the argument-list constructor leaves data null and length zero, so every
constructed message has the two payload shapes mutually exclusive. -/
theorem isolateMessage_two_payload_shapes :
    (∀ (dest : Int) (data : Option Nat) (length : Int),
        (IsolateMessage.ofData dest data length).argv = none ∧
        (IsolateMessage.ofData dest data length).argc = 0) ∧
    (∀ (dest argc : Int) (argv : Option Nat),
        (IsolateMessage.ofArgs dest argc argv).data = none ∧
        (IsolateMessage.ofArgs dest argc argv).length = 0) ∧
    (∀ (dest : Int) (data : Option Nat) (length : Int),
        (IsolateMessage.ofData dest data length).shapesExclusive) ∧
    (∀ (dest argc : Int) (argv : Option Nat),
        (IsolateMessage.ofArgs dest argc argv).shapesExclusive) :=
  ⟨fun _ _ _ => ⟨rfl, rfl⟩, fun _ _ _ => ⟨rfl, rfl⟩,
   fun _ _ _ => Or.inr rfl, fun _ _ _ => Or.inl rfl⟩

/-- Claim C7: the trampoline installs the per-thread context before invoking
the caller's entry function: the entry function is invoked with its opaque
parameter in a TLS state whose current thread is a fresh Thread carrying the
given name, so Thread::Current is never none inside the entry function. -/
theorem threadStart_installs_context_before_entry :
    ∀ (name : String) (parameter : Nat)
      (function : Nat → TlsState → TlsState),
      ThreadStart name parameter function =
        function parameter { current := some { name := some name } } ∧
      Thread.Current { current := some { name := some name } } =
        some { name := some name } :=
  fun _ _ _ => ⟨rfl, rfl⟩

/-- Claim C10: ThreadIdFromIntPtr inverts ThreadIdToIntPtr on every 64-bit
ThreadId, and ThreadIdToIntPtr inverts ThreadIdFromIntPtr on every intptr_t
value; the asserted size equality holds since both types are 64 bits. -/
theorem threadId_intptr_roundtrip :
    (∀ id : Nat, id < 2 ^ 64 →
        Thread.ThreadIdFromIntPtr (Thread.ThreadIdToIntPtr id) = id) ∧
    (∀ x : Int, -(2 ^ 63) ≤ x → x < 2 ^ 63 →
        Thread.ThreadIdToIntPtr (Thread.ThreadIdFromIntPtr x) = x) := by
  constructor
  · intro id h
    unfold Thread.ThreadIdToIntPtr Thread.ThreadIdFromIntPtr
    split <;> omega
  · intro x h1 h2
    unfold Thread.ThreadIdFromIntPtr Thread.ThreadIdToIntPtr
    split <;> omega

/-- Witness for the round-trip theorem at the concrete id 2^63 + 5 (a value
whose intptr_t image is negative) and the concrete intptr_t value -7. -/
theorem threadId_intptr_roundtrip_witness :
    (2 ^ 63 + 5 < 2 ^ 64 ∧
      Thread.ThreadIdFromIntPtr (Thread.ThreadIdToIntPtr (2 ^ 63 + 5)) =
        2 ^ 63 + 5) ∧
    Thread.ThreadIdToIntPtr (Thread.ThreadIdFromIntPtr (-7)) = -7 :=
  ⟨⟨by decide, threadId_intptr_roundtrip.1 (2 ^ 63 + 5) (by decide)⟩,
   threadId_intptr_roundtrip.2 (-7) (by decide) (by decide)⟩

/-- Claim C1 counterexample: when pthread_create fails with EAGAIN,
Thread::Start returns the nonzero error code to its caller and does not
terminate the process — RETURN_ON_PTHREAD_FAILURE returns the result, it
never invokes FATAL1. -/
theorem thread_start_failure_returned_cex :
    Thread.Start { attrInit := 0, create := EAGAIN, attrDestroy := 0 } =
      Outcome.ok EAGAIN ∧
    Thread.Start { attrInit := 0, create := EAGAIN, attrDestroy := 0 } ≠
      (Outcome.fatal : Outcome Int) := by
  constructor
  · rfl
  · decide

/-- Claim C1 amended: an OS-level failure in Thread::Start (pthread_attr_init,
pthread_create, or pthread_attr_destroy returning nonzero) is reported to
the caller as that nonzero return value, with 0 returned exactly when all
three calls succeed; OS failures in mutex/monitor initialization and in
thread-local key create/delete are fatal; the TryLock busy case (EBUSY) is
non-fatal and reported as false. -/
theorem thread_start_reports_failure_to_caller :
    (∀ os : ThreadStartOS, ∃ code, Thread.Start os = Outcome.ok code ∧
        (code = 0 ↔ os.attrInit = 0 ∧ os.create = 0 ∧ os.attrDestroy = 0)) ∧
    (∀ r : Int, Thread.CreateThreadLocal r = Outcome.fatal ↔ r ≠ 0) ∧
    (∀ r : Int, Thread.DeleteThreadLocal r = Outcome.fatal ↔ r ≠ 0) ∧
    (∀ os : MutexInitOS, Mutex.construct true os = Outcome.fatal ↔
        ¬(os.mutexattrInit = 0 ∧ os.settype = 0 ∧ os.mutexInit = 0 ∧
          os.mutexattrDestroy = 0)) ∧
    (∀ os : MonitorInitOS, Monitor.construct true os = Outcome.fatal ↔
        ¬(os.mutexattrInit = 0 ∧ os.settype = 0 ∧ os.mutexInit = 0 ∧
          os.mutexattrDestroy = 0 ∧ os.condattrInit = 0 ∧ os.setclock = 0 ∧
          os.condInit = 0 ∧ os.condattrDestroy = 0)) ∧
    (∀ (debug : Bool) (self : Int) (held : Option Int) (errorcheck : Bool)
        (owner : Int),
        Mutex.tryLockCont debug self held errorcheck owner EBUSY =
          Outcome.ok
            ({ held := held, errorcheck := errorcheck, owner := owner },
             false)) := by
  refine ⟨?_, ?_, ?_, ?_, ?_, ?_⟩
  · intro os
    unfold Thread.Start
    by_cases h1 : os.attrInit = 0 <;> by_cases h2 : os.create = 0 <;>
      by_cases h3 : os.attrDestroy = 0 <;>
      simp [h1, h2, h3]
  · intro r
    unfold Thread.CreateThreadLocal
    by_cases h : r = 0 <;> simp [h]
  · intro r
    unfold Thread.DeleteThreadLocal
    by_cases h : r = 0 <;> simp [h]
  · intro os
    unfold Mutex.construct
    by_cases h1 : os.mutexattrInit = 0 <;> by_cases h2 : os.settype = 0 <;>
      by_cases h3 : os.mutexInit = 0 <;>
      by_cases h4 : os.mutexattrDestroy = 0 <;>
      simp [h1, h2, h3, h4]
  · intro os
    unfold Monitor.construct
    by_cases h1 : os.mutexattrInit = 0 <;> by_cases h2 : os.settype = 0 <;>
      by_cases h3 : os.mutexInit = 0 <;>
      by_cases h4 : os.mutexattrDestroy = 0 <;>
      by_cases h5 : os.condattrInit = 0 <;> by_cases h6 : os.setclock = 0 <;>
      by_cases h7 : os.condInit = 0 <;>
      by_cases h8 : os.condattrDestroy = 0 <;>
      simp [h1, h2, h3, h4, h5, h6, h7, h8]
  · intro debug self held errorcheck owner
    rfl

/-- Claim C4 counterexample: at the int64 deadline -2147483650000000000
(seconds quotient -2147483650, below the int32 range) the timespec handed to
pthread_cond_timedwait has tv_sec 2147483646 — the static_cast to int32_t
wrapped the value — rather than the claimed quotient-clamped-to-kMaxInt32
value, which would be min of the quotient and kMaxInt32, namely
-2147483650.  The code only clamps quotients above kMaxInt32, never
quotients below the int32 minimum. -/
theorem waitUntilNanos_negative_deadline_overflow_cex :
    Monitor.WaitUntilNanos true 7
        { held := some 7, errorcheck := true, owner := 7, waiters := [] }
        (-2147483650000000000) 0 =
      Outcome.ok
        ({ held := some 7, errorcheck := true, owner := 7, waiters := [] },
         { tv_sec := 2147483646, tv_nsec := 0 }, WaitResult.kNotified) ∧
    (2147483646 : Int) ≠
      min (Int.tdiv (-2147483650000000000) kNanosecondsPerSecond)
        kMaxInt32 := by
  constructor
  · decide
  · decide

/-- Claim C4 amended: for every nonnegative deadline passed to
Monitor::WaitUntilNanos (monotonic-clock deadlines are nonnegative), the
absolute timespec handed to the OS wait is computed without overflow — its
seconds component is the deadline divided by one billion, clamped to
kMaxInt32 when it exceeds that bound, and its nanoseconds component is the
deadline modulo one billion. -/
theorem waitUntilNanos_timespec_clamped :
    ∀ (self : Int) (m : Monitor) (deadline osr : Int),
      m.owner = self → 0 ≤ deadline → (osr = 0 ∨ osr = ETIMEDOUT) →
      ∃ m2 r, Monitor.WaitUntilNanos true self m deadline osr =
        Outcome.ok (m2,
          { tv_sec := min (Int.tdiv deadline kNanosecondsPerSecond) kMaxInt32,
            tv_nsec := Int.tmod deadline kNanosecondsPerSecond }, r) := by
  intro self m deadline osr howner hpos hosr
  have hsecs : 0 ≤ Int.tdiv deadline kNanosecondsPerSecond :=
    Int.tdiv_nonneg hpos (by decide)
  have hts : waitTimespec deadline =
      { tv_sec := min (Int.tdiv deadline kNanosecondsPerSecond) kMaxInt32,
        tv_nsec := Int.tmod deadline kNanosecondsPerSecond } := by
    unfold waitTimespec int32Cast
    simp only [Timespec.mk.injEq]
    constructor
    · unfold kMaxInt32 at *
      split <;> omega
    · trivial
  refine ⟨{ held := m.held, errorcheck := m.errorcheck, owner := self,
            waiters := m.waiters },
          if osr = ETIMEDOUT then WaitResult.kTimedOut
          else WaitResult.kNotified, ?_⟩
  unfold Monitor.WaitUntilNanos checkHeldAndUnmarkOwner
    checkUnheldAndMarkOwner
  rcases hosr with h | h <;>
    simp [howner, h, Outcome.bind, Outcome.map, hts, ETIMEDOUT,
      kInvalidThreadId]

/-- Witness for the amended timespec theorem: a deadline of nine quintillion
nanoseconds has seconds quotient 9000000000, which is clamped to
kMaxInt32. -/
theorem waitUntilNanos_timespec_clamped_witness :
    ∃ m2 r, Monitor.WaitUntilNanos true 3
        { held := some 3, errorcheck := true, owner := 3, waiters := [] }
        9000000000000000000 0 =
      Outcome.ok (m2,
        { tv_sec := min (Int.tdiv 9000000000000000000 kNanosecondsPerSecond)
            kMaxInt32,
          tv_nsec := Int.tmod 9000000000000000000 kNanosecondsPerSecond },
        r) :=
  waitUntilNanos_timespec_clamped 3
    { held := some 3, errorcheck := true, owner := 3, waiters := [] }
    9000000000000000000 0 rfl (by decide) (Or.inl rfl)

/-- Claim C5: under the checked build, WaitUntilNanos returns kTimedOut
exactly when pthread_cond_timedwait reports ETIMEDOUT and kNotified when it
reports success; any other OS result fails the ASSERT (an invariant
violation); in a release build any non-ETIMEDOUT result yields kNotified;
the two result values are distinguishable, and the timeout is an ordinary
ok-result, never an error outcome. -/
theorem waitUntilNanos_result_semantics :
    ∀ (self : Int) (m : Monitor) (deadline osr : Int),
      m.owner = self →
      (osr = ETIMEDOUT → ∃ m2 ts,
          Monitor.WaitUntilNanos true self m deadline osr =
            Outcome.ok (m2, ts, WaitResult.kTimedOut)) ∧
      (osr = 0 → ∃ m2 ts,
          Monitor.WaitUntilNanos true self m deadline osr =
            Outcome.ok (m2, ts, WaitResult.kNotified)) ∧
      (osr ≠ 0 → osr ≠ ETIMEDOUT →
          Monitor.WaitUntilNanos true self m deadline osr =
            Outcome.assertFail) ∧
      (osr ≠ ETIMEDOUT → ∃ m2 ts,
          Monitor.WaitUntilNanos false self m deadline osr =
            Outcome.ok (m2, ts, WaitResult.kNotified)) ∧
      WaitResult.kTimedOut ≠ WaitResult.kNotified := by
  intro self m deadline osr howner
  refine ⟨?_, ?_, ?_, ?_, by decide⟩
  · intro h
    refine ⟨{ held := m.held, errorcheck := m.errorcheck, owner := self,
              waiters := m.waiters }, waitTimespec deadline, ?_⟩
    unfold Monitor.WaitUntilNanos checkHeldAndUnmarkOwner
      checkUnheldAndMarkOwner
    simp [howner, h, ETIMEDOUT, Outcome.bind, Outcome.map, kInvalidThreadId]
  · intro h
    refine ⟨{ held := m.held, errorcheck := m.errorcheck, owner := self,
              waiters := m.waiters }, waitTimespec deadline, ?_⟩
    unfold Monitor.WaitUntilNanos checkHeldAndUnmarkOwner
      checkUnheldAndMarkOwner
    simp [howner, h, ETIMEDOUT, Outcome.bind, Outcome.map, kInvalidThreadId]
  · intro h1 h2
    unfold Monitor.WaitUntilNanos checkHeldAndUnmarkOwner
    simp [howner, h1, h2, Outcome.bind]
  · intro h
    refine ⟨{ held := m.held, errorcheck := m.errorcheck,
              owner := kInvalidThreadId, waiters := m.waiters },
            waitTimespec deadline, ?_⟩
    unfold Monitor.WaitUntilNanos checkHeldAndUnmarkOwner
      checkUnheldAndMarkOwner
    simp [h, Outcome.bind, Outcome.map]

/-- Witness for the WaitUntilNanos result semantics at a concrete monitor
held by thread 1 with the OS reporting ETIMEDOUT. -/
theorem waitUntilNanos_result_semantics_witness :
    ∃ m2 ts, Monitor.WaitUntilNanos true 1
        { held := some 1, errorcheck := true, owner := 1, waiters := [] }
        5 ETIMEDOUT =
      Outcome.ok (m2, ts, WaitResult.kTimedOut) :=
  (waitUntilNanos_result_semantics 1
    { held := some 1, errorcheck := true, owner := 1, waiters := [] }
    5 ETIMEDOUT rfl).1 rfl

/-- Claim C6: TryLock and TryEnter never block; each returns false exactly
when the OS try-lock reports EBUSY (leaving the primitive unchanged) and
returns true after acquiring the lock and marking ownership; in the checked
build an OS result other than success or EBUSY is fatal rather than being
reported as false. -/
theorem tryLock_tryEnter_semantics :
    ∀ (debug : Bool) (self : Int) (m : Mutex) (n : Monitor) (result : Int),
      (Mutex.TryLock debug self m).isBlocked = false ∧
      (Monitor.TryEnter debug self n).isBlocked = false ∧
      (∀ t, m.held = some t →
          Mutex.TryLock debug self m = Outcome.ok (m, false)) ∧
      (∀ t, n.held = some t →
          Monitor.TryEnter debug self n = Outcome.ok (n, false)) ∧
      (m.held = none → m.owner = kInvalidThreadId →
          Mutex.TryLock true self m =
            Outcome.ok ({ held := some self, errorcheck := m.errorcheck,
                          owner := self }, true)) ∧
      (n.held = none → n.owner = kInvalidThreadId →
          Monitor.TryEnter true self n =
            Outcome.ok ({ held := some self, errorcheck := n.errorcheck,
                          owner := self, waiters := n.waiters }, true)) ∧
      (result ≠ EBUSY → result ≠ 0 →
          Mutex.tryLockCont true self m.held m.errorcheck m.owner result =
            Outcome.fatal) ∧
      (result ≠ EBUSY → result ≠ 0 →
          Monitor.tryEnterCont true self n.held n.errorcheck n.owner
            n.waiters result = Outcome.fatal) := by
  intro debug self m n result
  obtain ⟨mh, mec, mow⟩ := m
  obtain ⟨nh, nec, now, nwt⟩ := n
  refine ⟨?_, ?_, ?_, ?_, ?_, ?_, ?_, ?_⟩
  · unfold Mutex.TryLock Mutex.tryLockCont pthreadMutexTrylock
      checkUnheldAndMarkOwner
    cases mh <;>
      · simp only [EBUSY]
        split_ifs <;>
          simp [Outcome.map, Outcome.bind, Outcome.isBlocked]
  · unfold Monitor.TryEnter Monitor.tryEnterCont pthreadMutexTrylock
      checkUnheldAndMarkOwner
    cases nh <;>
      · simp only [EBUSY]
        split_ifs <;>
          simp [Outcome.map, Outcome.bind, Outcome.isBlocked]
  · intro t ht
    subst ht
    rfl
  · intro t ht
    subst ht
    rfl
  · intro h1 h2
    subst h1
    simp only [kInvalidThreadId] at h2
    subst h2
    unfold Mutex.TryLock Mutex.tryLockCont pthreadMutexTrylock
      checkUnheldAndMarkOwner
    simp [EBUSY, kInvalidThreadId, Outcome.map, Outcome.bind]
  · intro h1 h2
    subst h1
    simp only [kInvalidThreadId] at h2
    subst h2
    unfold Monitor.TryEnter Monitor.tryEnterCont pthreadMutexTrylock
      checkUnheldAndMarkOwner
    simp [EBUSY, kInvalidThreadId, Outcome.map, Outcome.bind]
  · intro h1 h2
    unfold Mutex.tryLockCont
    simp [h1, h2]
  · intro h1 h2
    unfold Monitor.tryEnterCont
    simp [h1, h2]

/-- Witness for TryLock/TryEnter: trying a mutex held by thread 9 from
thread 2 reports busy without blocking; trying a free monitor from thread 2
acquires it and marks ownership. -/
theorem tryLock_tryEnter_semantics_witness :
    Mutex.TryLock true 2 { held := some 9, errorcheck := true, owner := 9 } =
      Outcome.ok ({ held := some 9, errorcheck := true, owner := 9 },
        false) ∧
    Monitor.TryEnter true 2
        { held := none, errorcheck := true, owner := 0, waiters := [] } =
      Outcome.ok ({ held := some 2, errorcheck := true, owner := 2,
                    waiters := [] }, true) :=
  ⟨(tryLock_tryEnter_semantics true 2
      { held := some 9, errorcheck := true, owner := 9 }
      { held := none, errorcheck := true, owner := 0, waiters := [] }
      0).2.2.1 9 rfl,
   (tryLock_tryEnter_semantics true 2
      { held := some 9, errorcheck := true, owner := 9 }
      { held := none, errorcheck := true, owner := 0, waiters := [] }
      0).2.2.2.2.2.1 rfl rfl⟩

/-- Claim C8: in the checked build Notify and NotifyAll assert that the
calling thread owns the monitor; under that precondition a successful signal
wakes at most one waiter and a successful broadcast wakes every waiter,
while an OS failure of the signal or broadcast is fatal. -/
theorem monitor_notify_requires_ownership :
    ∀ (self : Int) (m : Monitor) (osr : Int),
      (m.owner ≠ self →
          Monitor.Notify true self m osr = Outcome.assertFail ∧
          Monitor.NotifyAll true self m osr = Outcome.assertFail) ∧
      (m.owner = self → osr = 0 →
          Monitor.Notify true self m osr =
            Outcome.ok ({ held := m.held, errorcheck := m.errorcheck,
                          owner := m.owner, waiters := m.waiters.drop 1 },
                        m.waiters.take 1) ∧
          Monitor.NotifyAll true self m osr =
            Outcome.ok ({ held := m.held, errorcheck := m.errorcheck,
                          owner := m.owner, waiters := [] }, m.waiters)) ∧
      (m.owner = self → osr ≠ 0 →
          Monitor.Notify true self m osr = Outcome.fatal ∧
          Monitor.NotifyAll true self m osr = Outcome.fatal) := by
  intro self m osr
  refine ⟨?_, ?_, ?_⟩
  · intro h
    constructor <;>
      simp [Monitor.Notify, Monitor.NotifyAll,
        Monitor.IsOwnedByCurrentThread, h]
  · intro h1 h2
    constructor <;>
      simp [Monitor.Notify, Monitor.NotifyAll,
        Monitor.IsOwnedByCurrentThread, h1, h2]
  · intro h1 h2
    constructor <;>
      simp [Monitor.Notify, Monitor.NotifyAll,
        Monitor.IsOwnedByCurrentThread, h1, h2]

/-- Witness for the Notify contract: thread 1 owning the monitor signals
with OS success and wakes exactly the first of the two waiters. -/
theorem monitor_notify_requires_ownership_witness :
    Monitor.Notify true 1
        { held := some 1, errorcheck := true, owner := 1,
          waiters := [5, 6] } 0 =
      Outcome.ok ({ held := some 1, errorcheck := true, owner := 1,
                    waiters := [6] }, [5]) :=
  ((monitor_notify_requires_ownership 1
      { held := some 1, errorcheck := true, owner := 1, waiters := [5, 6] }
      0).2.1 rfl rfl).1

/-- Claim C9: in the checked build (error-checking mutex plus owner
tracking), a second Lock by the holding thread fails the EDEADLK assert and
an Unlock by a non-holder fails the ownership assert; an unlock of an
unheld error-checking mutex fails the EPERM assert; in a release build the
double lock is not detected — the thread simply deadlocks (blocks). -/
theorem mutex_checked_ownership_violations :
    ∀ (self : Int) (m : Mutex),
      (m.errorcheck = true → m.held = some self →
          Mutex.Lock true self m = Outcome.assertFail) ∧
      (m.owner ≠ self →
          Mutex.Unlock true self m = Outcome.assertFail) ∧
      (m.owner = self → m.errorcheck = true → m.held = none →
          Mutex.Unlock true self m = Outcome.assertFail) ∧
      (m.errorcheck = false → m.held = some self →
          Mutex.Lock false self m = Outcome.blocked) := by
  intro self m
  refine ⟨?_, ?_, ?_, ?_⟩
  · intro h1 h2
    unfold Mutex.Lock pthreadMutexLock
    simp [h1, h2, Outcome.bind, EDEADLK]
  · intro h
    unfold Mutex.Unlock checkHeldAndUnmarkOwner
    simp [h, Outcome.bind]
  · intro h1 h2 h3
    unfold Mutex.Unlock checkHeldAndUnmarkOwner pthreadMutexUnlock
    simp [h1, h2, h3, Outcome.bind, EPERM]
  · intro h1 h2
    unfold Mutex.Lock pthreadMutexLock
    simp [h1, h2, Outcome.bind]

/-- Witness for the checked ownership violations: thread 2 re-locking the
error-checking mutex it already holds is detected. -/
theorem mutex_checked_ownership_violations_witness :
    Mutex.Lock true 2 { held := some 2, errorcheck := true, owner := 2 } =
      Outcome.assertFail :=
  (mutex_checked_ownership_violations 2
    { held := some 2, errorcheck := true, owner := 2 }).1 rfl rfl

end Psoup
